import Mathlib

/-!
Verification development for the STM32G0xx HAL ADC driver
(`src/analog/adc.rs`).

The peripheral's register block is modelled as a flat record of the named
bit-fields the driver touches.  Driver operations are pure state
transformers on an `Adc` record that pairs the register block with the
driver's cached configuration (sample time, alignment, precision), exactly
mirroring the Rust `Adc` struct.

Busy-wait loops (`while flag {}`) are modelled by the state observed at
loop exit: the loop condition guarantees the polled flag's value when the
loop terminates, and for the conversion-completion wait the hardware has
deposited the raw conversion result in the data register.  The raw value
delivered by the hardware is an explicit parameter of `Adc.read`.

Status-register writes such as `w.adrdy().set_bit()` follow the
peripheral's write-1-to-clear semantics for status flags: the driver's
write clears the flag.
-/

namespace AdcSpec

/-- ADC result alignment (`enum Align`). -/
inductive Align
| Right
| Left
deriving DecidableEq, Repr

/-- ADC sampling precision (`enum Precision`). -/
inductive Precision
| B_12
| B_10
| B_8
| B_6
deriving DecidableEq, Repr

/-- The discriminant of `Precision` (`precision as u8`). -/
def Precision.code : Precision → Nat
| .B_12 => 0
| .B_10 => 1
| .B_8 => 2
| .B_6 => 3

/-- ADC sampling time (`enum SampleTime`). -/
inductive SampleTime
| T_2
| T_4
| T_8
| T_12
| T_20
| T_40
| T_80
| T_160
deriving DecidableEq, Repr

/-- The discriminant of `SampleTime` (`t_samp as u8`). -/
def SampleTime.code : SampleTime → Nat
| .T_2 => 0
| .T_4 => 1
| .T_8 => 2
| .T_12 => 3
| .T_20 => 4
| .T_40 => 5
| .T_80 => 6
| .T_160 => 7

/-- PCLK clock divider (`enum PclkDiv`), with the source's discriminants. -/
inductive PclkDiv
| PclkD1
| PclkD2
| PclkD4
deriving DecidableEq, Repr

/-- The discriminant of `PclkDiv` (`div as u8`). -/
def PclkDiv.code : PclkDiv → Nat
| .PclkD1 => 3
| .PclkD2 => 1
| .PclkD4 => 2

/-- Asynchronous clock divider (`enum AsyncClockDiv`). -/
inductive AsyncClockDiv
| AsyncD1
| AsyncD2
| AsyncD4
| AsyncD8
| AsyncD16
| AsyncD32
| AsyncD64
| AsyncD128
| AsyncD256
deriving DecidableEq, Repr

/-- The discriminant of `AsyncClockDiv` (`div as u8`). -/
def AsyncClockDiv.code : AsyncClockDiv → Nat
| .AsyncD1 => 0
| .AsyncD2 => 1
| .AsyncD4 => 2
| .AsyncD8 => 3
| .AsyncD16 => 4
| .AsyncD32 => 5
| .AsyncD64 => 6
| .AsyncD128 => 7
| .AsyncD256 => 8

/-- ADC clock source (`enum ClockSource`). -/
inductive ClockSource
| Pclk (div : PclkDiv)
| Async (div : AsyncClockDiv)
deriving DecidableEq, Repr

/-- The ADC register block, flattened to the named bit-fields the driver
reads or writes: status register ISR (ADRDY, EOS), control register CR
(ADVREGEN, ADEN, ADDIS, ADSTART, ADCAL), configuration registers CFGR1
(RES, ALIGN) and CFGR2 (CKMODE), common register CCR (PRESC, TSEN, VREFEN,
VBATEN), sampling-time register SMPR (SMP1), channel selection register
CHSELR (CHSEL), data register DR, and calibration register CALFACT.
Multi-bit fields are natural numbers; CALFACT holds the 8-bit factor
written from a `u8`, modelled as `Fin 256`. -/
structure AdcRegs where
  isr_adrdy : Bool
  isr_eos : Bool
  cr_advregen : Bool
  cr_aden : Bool
  cr_addis : Bool
  cr_adstart : Bool
  cr_adcal : Bool
  cfgr1_res : Nat
  cfgr1_align : Bool
  cfgr2_ckmode : Nat
  ccr_presc : Nat
  ccr_tsen : Bool
  ccr_vrefen : Bool
  ccr_vbaten : Bool
  smpr_smp1 : Nat
  chselr_chsel : Nat
  dr : Nat
  calfact : Fin 256
deriving DecidableEq, Repr

/-- The driver handle (`struct Adc`): the owned register block plus the
cached configuration. -/
structure Adc where
  rb : AdcRegs
  sample_time : SampleTime
  align : Align
  precision : Precision
deriving DecidableEq, Repr

/-- `Adc::new`: enables the ADC clock (a write to the external RCC block,
out of scope here), sets ADVREGEN, and initializes the cached
configuration to `T_2` / `Right` / `B_12`. -/
def Adc.new (adc : AdcRegs) : Adc :=
  { rb := { adc with cr_advregen := true }
    sample_time := SampleTime.T_2
    align := Align.Right
    precision := Precision.B_12 }

/-- `Adc::set_clock_source`: for `Pclk(div)` write the divider code into
CFGR2.CKMODE; for `Async(div)` first write CKMODE to 0 (asynchronous mode)
and then write the divider code into CCR.PRESC. -/
def Adc.set_clock_source (a : Adc) (clock_source : ClockSource) : Adc :=
  match clock_source with
  | ClockSource.Pclk div =>
      { a with rb := { a.rb with cfgr2_ckmode := div.code } }
  | ClockSource.Async div =>
      let a1 := { a with rb := { a.rb with cfgr2_ckmode := 0 } }
      { a1 with rb := { a1.rb with ccr_presc := div.code } }

/-- `Adc::get_calibration`: read CALFACT. -/
def Adc.get_calibration (a : Adc) : Fin 256 :=
  a.rb.calfact

/-- `Adc::set_calibration`: write the saved factor into CALFACT. -/
def Adc.set_calibration (a : Adc) (calfact : Fin 256) : Adc :=
  { a with rb := { a.rb with calfact := calfact } }

/-- `Adc::set_sample_time`: update the cached sample time. -/
def Adc.set_sample_time (a : Adc) (t_samp : SampleTime) : Adc :=
  { a with sample_time := t_samp }

/-- `Adc::set_align`: update the cached alignment. -/
def Adc.set_align (a : Adc) (align : Align) : Adc :=
  { a with align := align }

/-- `Adc::set_precision`: update the cached precision. -/
def Adc.set_precision (a : Adc) (precision : Precision) : Adc :=
  { a with precision := precision }

/-- `Adc::power_up`: clear the stale ADRDY flag (write-1-to-clear), set
ADEN, then busy-wait until ADRDY reads set — at loop exit the hardware has
asserted ADRDY. -/
def Adc.power_up (a : Adc) : Adc :=
  let a1 := { a with rb := { a.rb with isr_adrdy := false } }
  let a2 := { a1 with rb := { a1.rb with cr_aden := true } }
  { a2 with rb := { a2.rb with isr_adrdy := true } }

/-- `Adc::power_down`: set ADDIS, clear the ADRDY flag (write-1-to-clear),
then busy-wait until ADEN reads clear — at loop exit the hardware has
deasserted ADEN. -/
def Adc.power_down (a : Adc) : Adc :=
  let a1 := { a with rb := { a.rb with cr_addis := true } }
  let a2 := { a1 with rb := { a1.rb with isr_adrdy := false } }
  { a2 with rb := { a2.rb with cr_aden := false } }

/-- `OneShot::read` for `Adc`: power up; write RES and ALIGN together into
CFGR1 from the cached configuration; write SMP1; write the one-hot channel
mask into CHSELR.CHSEL (a 19-bit field); clear EOS (write-1-to-clear); set
ADSTART; busy-wait until EOS reads set — at loop exit the hardware has
deposited the conversion result in DR (16 bits) and asserted EOS; read DR
as `u16`; apply the 8-bit left shift (with `u16` wrap-around) exactly when
alignment is Left and precision is `B_6`; power down; return `Ok`.
`channel` is `PIN::channel()` and `raw` is the conversion result the
hardware delivers. -/
def Adc.read (a0 : Adc) (channel : Nat) (raw : Nat) : Adc × Except Unit Nat :=
  let a1 := a0.power_up
  let a2 := { a1 with rb := { a1.rb with
    cfgr1_res := a1.precision.code
    cfgr1_align := a1.align == Align.Left } }
  let a3 := { a2 with rb := { a2.rb with smpr_smp1 := a2.sample_time.code } }
  let a4 := { a3 with rb := { a3.rb with chselr_chsel := (1 <<< channel) % 2 ^ 19 } }
  let a5 := { a4 with rb := { a4.rb with isr_eos := false } }
  let a6 := { a5 with rb := { a5.rb with cr_adstart := true } }
  let a7 := { a6 with rb := { a6.rb with dr := raw % 2 ^ 16, isr_eos := true } }
  let res := a7.rb.dr % 2 ^ 16
  let val := if a7.align == Align.Left && a7.precision == Precision.B_6
    then (res <<< 8) % 2 ^ 16
    else res
  let a8 := a7.power_down
  (a8, Except.ok val)

/-- The internal-source channels generated by the `int_adc!` macro. -/
inductive IntChannel
| VTemp
| VRef
| VBat
deriving DecidableEq, Repr

/-- `Channel::channel()` for the internal sources. -/
def IntChannel.channel : IntChannel → Nat
| .VTemp => 12
| .VRef => 13
| .VBat => 14

/-- `enable`: set the internal source's enable bit in the shared CCR. -/
def IntChannel.enable (ch : IntChannel) (adc : Adc) : Adc :=
  match ch with
  | .VTemp => { adc with rb := { adc.rb with ccr_tsen := true } }
  | .VRef => { adc with rb := { adc.rb with ccr_vrefen := true } }
  | .VBat => { adc with rb := { adc.rb with ccr_vbaten := true } }

/-- `disable`: clear the internal source's enable bit in the shared CCR. -/
def IntChannel.disable (ch : IntChannel) (adc : Adc) : Adc :=
  match ch with
  | .VTemp => { adc with rb := { adc.rb with ccr_tsen := false } }
  | .VRef => { adc with rb := { adc.rb with ccr_vrefen := false } }
  | .VBat => { adc with rb := { adc.rb with ccr_vbaten := false } }

/-- The CCR enable bit owned by an internal channel. -/
def ccrEnableBit : IntChannel → AdcRegs → Bool
| .VTemp, r => r.ccr_tsen
| .VRef, r => r.ccr_vrefen
| .VBat, r => r.ccr_vbaten

/-- `b` agrees with `a` everywhere — cached configuration and every
register field — except possibly at the CCR enable bit owned by `ch`. -/
def onlyCcrBitDiffers (ch : IntChannel) (a b : Adc) : Prop :=
  b.sample_time = a.sample_time ∧ b.align = a.align ∧ b.precision = a.precision ∧
  b.rb.isr_adrdy = a.rb.isr_adrdy ∧ b.rb.isr_eos = a.rb.isr_eos ∧
  b.rb.cr_advregen = a.rb.cr_advregen ∧ b.rb.cr_aden = a.rb.cr_aden ∧
  b.rb.cr_addis = a.rb.cr_addis ∧ b.rb.cr_adstart = a.rb.cr_adstart ∧
  b.rb.cr_adcal = a.rb.cr_adcal ∧
  b.rb.cfgr1_res = a.rb.cfgr1_res ∧ b.rb.cfgr1_align = a.rb.cfgr1_align ∧
  b.rb.cfgr2_ckmode = a.rb.cfgr2_ckmode ∧
  b.rb.ccr_presc = a.rb.ccr_presc ∧
  (∀ ch2 : IntChannel, ch2 ≠ ch → ccrEnableBit ch2 b.rb = ccrEnableBit ch2 a.rb) ∧
  b.rb.smpr_smp1 = a.rb.smpr_smp1 ∧ b.rb.chselr_chsel = a.rb.chselr_chsel ∧
  b.rb.dr = a.rb.dr ∧ b.rb.calfact = a.rb.calfact

/-- A concrete all-zero register block, used for instantiating theorems. -/
def regs0 : AdcRegs :=
  { isr_adrdy := false, isr_eos := false, cr_advregen := false,
    cr_aden := false, cr_addis := false, cr_adstart := false,
    cr_adcal := false, cfgr1_res := 0, cfgr1_align := false,
    cfgr2_ckmode := 0, ccr_presc := 0, ccr_tsen := false,
    ccr_vrefen := false, ccr_vbaten := false, smpr_smp1 := 0,
    chselr_chsel := 0, dr := 0, calfact := 0 }

/-- Claim C1: for every conversion performed by `read`, if the cached
alignment is `Left` and the cached precision is `B_6`, the returned value
is the 16-bit raw data-register value left-shifted by 8 (mod `2 ^ 16`);
for every other (alignment, precision) combination the returned value is
the raw data-register value unmodified. -/
theorem read_result_scaling (a : Adc) (channel raw : Nat) (h : raw < 2 ^ 16) :
    (a.read channel raw).2 =
      Except.ok (if a.align = Align.Left ∧ a.precision = Precision.B_6
        then (raw <<< 8) % 2 ^ 16
        else raw) := by
  have h2 : raw % 65536 = raw := Nat.mod_eq_of_lt (by omega)
  simp only [Adc.read, Adc.power_up, Adc.power_down]
  simp [h2, Bool.and_eq_true, beq_iff_eq]

/-- Witness for C1: a conversion at Left alignment and 6-bit precision
returns `1234 <<< 8` wrapped to 16 bits, namely `53760`. -/
theorem read_result_scaling_witness :
    (((Adc.new regs0).set_align Align.Left |>.set_precision Precision.B_6).read
        3 1234).2 = Except.ok 53760 := by
  have h := read_result_scaling
    ((Adc.new regs0).set_align Align.Left |>.set_precision Precision.B_6)
    3 1234 (by decide)
  simpa [Adc.new, Adc.set_align, Adc.set_precision, regs0] using h

/-- Claim C2: `read` never produces the declared error value — for every
channel, hardware-delivered raw value and starting state, the result is
`Ok` with the converted value. -/
theorem read_never_errors (a : Adc) (channel raw : Nat) :
    ∃ v, (a.read channel raw).2 = Except.ok v :=
  ⟨_, rfl⟩

/-- Claim C3: for every async divider and every prior register state,
`set_clock_source (Async div)` leaves CFGR2.CKMODE at 0 (asynchronous) and
CCR.PRESC at the divider's code; in particular after `Async AsyncD4` the
prescaler field holds the divide-by-4 code 2. -/
theorem set_clock_source_async (a : Adc) (div : AsyncClockDiv) :
    (a.set_clock_source (ClockSource.Async div)).rb.cfgr2_ckmode = 0 ∧
    (a.set_clock_source (ClockSource.Async div)).rb.ccr_presc = div.code ∧
    (a.set_clock_source (ClockSource.Async AsyncClockDiv.AsyncD4)).rb.ccr_presc = 2 := by
  refine ⟨?_, ?_, ?_⟩ <;> cases div <;>
    simp [Adc.set_clock_source, AsyncClockDiv.code]

/-- Claim C4: whatever the channel, raw value and starting state, when
`read` completes, ADEN is clear — the peripheral is deactivated again. -/
theorem read_powers_down (a : Adc) (channel raw : Nat) :
    (a.read channel raw).1.rb.cr_aden = false := by
  simp [Adc.read, Adc.power_up, Adc.power_down]

/-- Claim C5: `set_calibration (get_calibration a)` leaves the engine
state unchanged, and `get_calibration` immediately after
`set_calibration f` returns `f`, for every factor `f`. -/
theorem calibration_round_trip (a : Adc) (f : Fin 256) :
    a.set_calibration a.get_calibration = a ∧
    (a.set_calibration f).get_calibration = f :=
  ⟨rfl, rfl⟩

/-- Claim C7: for every bus-clock divider and every prior register state,
`set_clock_source (Pclk div)` writes the divider's nonzero code into
CFGR2.CKMODE (so the mode no longer reads as asynchronous/0) and leaves
CCR.PRESC unchanged. -/
theorem set_clock_source_pclk (a : Adc) (div : PclkDiv) :
    (a.set_clock_source (ClockSource.Pclk div)).rb.cfgr2_ckmode = div.code ∧
    div.code ≠ 0 ∧
    (a.set_clock_source (ClockSource.Pclk div)).rb.ccr_presc = a.rb.ccr_presc := by
  refine ⟨?_, ?_, ?_⟩ <;> cases div <;>
    simp [Adc.set_clock_source, PclkDiv.code]

/-- Claim C6: for every channel selector below the 19-bit field width
(all selectors in the driver are 0–18), `read` writes CHSELR.CHSEL to the
one-hot mask `1 <<< channel` — exactly one bit set, at position `channel`
— regardless of which bits were set before. -/
theorem read_chsel_one_hot (a : Adc) (channel raw : Nat) (h : channel < 19) :
    (a.read channel raw).1.rb.chselr_chsel = 1 <<< channel ∧
    ∀ j, ((a.read channel raw).1.rb.chselr_chsel).testBit j = decide (j = channel) := by
  have hlt : 1 <<< channel < 2 ^ 19 := by
    rw [Nat.shiftLeft_eq, one_mul]
    exact Nat.pow_lt_pow_right one_lt_two h
  have hlt2 : 1 <<< channel < 524288 := by simpa using hlt
  have hc : (a.read channel raw).1.rb.chselr_chsel = 1 <<< channel := by
    simp [Adc.read, Adc.power_up, Adc.power_down, Nat.mod_eq_of_lt hlt2]
  refine ⟨hc, fun j => ?_⟩
  rw [hc, Nat.shiftLeft_eq, one_mul, Nat.testBit_two_pow]
  simp [eq_comm]

/-- Witness for C6: sampling channel 3 programs CHSEL to `1 <<< 3 = 8`. -/
theorem read_chsel_one_hot_witness :
    3 < 19 ∧ ((Adc.new regs0).read 3 0).1.rb.chselr_chsel = 1 <<< 3 :=
  ⟨by decide, (read_chsel_one_hot (Adc.new regs0) 3 0 (by decide)).1⟩

/-- Claim C8: for every internal channel and every starting state,
`enable` followed by `disable` leaves that channel's CCR enable bit clear,
and each of the two operations changes nothing but that single bit. -/
theorem int_channel_enable_disable (ch : IntChannel) (a : Adc) :
    ccrEnableBit ch (ch.disable (ch.enable a)).rb = false ∧
    onlyCcrBitDiffers ch a (ch.enable a) ∧
    onlyCcrBitDiffers ch a (ch.disable a) := by
  refine ⟨?_, ?_, ?_⟩ <;> cases ch <;>
    simp [IntChannel.enable, IntChannel.disable, ccrEnableBit, onlyCcrBitDiffers] <;>
    (intro ch2 hne; cases ch2 <;> simp_all [ccrEnableBit])

/-- Claim C9: each configuration mutator updates only its own cached
field, writing no hardware register and leaving the other cached fields
alone; the cached configuration is applied to the hardware registers
(RES, ALIGN, SMP1) during a `read` call. -/
theorem config_mutators_cached (a : Adc) (t_samp : SampleTime) (al : Align)
    (p : Precision) (channel raw : Nat) :
    ((a.set_sample_time t_samp).rb = a.rb ∧
     (a.set_sample_time t_samp).sample_time = t_samp ∧
     (a.set_sample_time t_samp).align = a.align ∧
     (a.set_sample_time t_samp).precision = a.precision) ∧
    ((a.set_align al).rb = a.rb ∧
     (a.set_align al).align = al ∧
     (a.set_align al).sample_time = a.sample_time ∧
     (a.set_align al).precision = a.precision) ∧
    ((a.set_precision p).rb = a.rb ∧
     (a.set_precision p).precision = p ∧
     (a.set_precision p).sample_time = a.sample_time ∧
     (a.set_precision p).align = a.align) ∧
    ((a.read channel raw).1.rb.cfgr1_res = a.precision.code ∧
     (a.read channel raw).1.rb.cfgr1_align = (a.align == Align.Left) ∧
     (a.read channel raw).1.rb.smpr_smp1 = a.sample_time.code) := by
  refine ⟨⟨rfl, rfl, rfl, rfl⟩, ⟨rfl, rfl, rfl, rfl⟩, ⟨rfl, rfl, rfl, rfl⟩, ?_, ?_, ?_⟩ <;>
    simp [Adc.read, Adc.power_up, Adc.power_down,
      Adc.set_sample_time, Adc.set_align, Adc.set_precision]

/-- Claim C10: a freshly constructed engine has the cached configuration
`T_2` / `Right` / `B_12`, so a first `read` with no prior configuration
programs a 12-bit (RES = 0), right-aligned (ALIGN = 0) conversion with the
shortest sample time (SMP1 = 0). -/
theorem new_default_config (adc : AdcRegs) (channel raw : Nat) :
    (Adc.new adc).sample_time = SampleTime.T_2 ∧
    (Adc.new adc).align = Align.Right ∧
    (Adc.new adc).precision = Precision.B_12 ∧
    ((Adc.new adc).read channel raw).1.rb.cfgr1_res = 0 ∧
    ((Adc.new adc).read channel raw).1.rb.cfgr1_align = false ∧
    ((Adc.new adc).read channel raw).1.rb.smpr_smp1 = 0 := by
  refine ⟨rfl, rfl, rfl, ?_, ?_, ?_⟩ <;>
    simp [Adc.new, Adc.read, Adc.power_up, Adc.power_down,
      Precision.code, SampleTime.code]

end AdcSpec
